import Mathlib

/-!
Verification development for the travel-checklist assistant.

This file is a shallow embedding, in Lean 4, of the parts of the repository
that the checked claims talk about:

* `src/services/weather.py` — geocode/forecast fetching (`get_weather_forecast`),
  per-day aggregation (`_process_forecast`) and the rule-based packing
  suggestions (`get_packing_suggestions`);
* `src/services/checklist_generator.py` — the generation engine
  (`generate_travel_checklist`) with its rule fallback
  (`_get_purpose_specific_items`, `_get_duration_specific_items`,
  `_categorize_items`);
* `src/services/llm_client.py` — the branch structure of
  `classify_trip_purpose`;
* `src/handlers.py` — the start-date step (`handle_start_date`), the
  trip-level weather aggregation inside `handle_duration`, the new-category
  insertion inside `handle_trip_type`, and the checklist view/edit handlers;
* `src/web/main.py` — the web viewer's weather data-loading and the
  add-item/delete-item endpoints.

Numbers are modelled as rationals (the Python floats are treated as exact
decimals), strings as Lean `String`s, and JSON-ish dictionaries as structures
with `Option` fields (`none` standing for an absent or `null` entry).  Network
providers are passed in as explicit environment values.  Python's iteration
over a `set` has no specified order; wherever the source materialises a set
into a list we use `List.dedup` as a canonical representative and say so at
the definition.
-/

/-! ### Python-style primitives -/

/-- Round a rational to the nearest integer, ties to even, mirroring Python's
built-in `round` (the source rounds exact decimal values, so the
binary-float artefacts of CPython are out of scope). -/
def pyRoundInt (x : ℚ) : ℤ :=
  if x - ⌊x⌋ = 1/2 then (if ⌊x⌋ % 2 = 0 then ⌊x⌋ else ⌊x⌋ + 1) else round x

/-- Python's `round(x, 1)`: round to one decimal place, ties to even. -/
def pyRound1 (x : ℚ) : ℚ := (pyRoundInt (10 * x)) / 10

/-- Python's `min` over a list, with an explicit default for the empty list
(the call sites in the source never reach the default). -/
def qMin (l : List ℚ) (dflt : ℚ) : ℚ :=
  match l with
  | [] => dflt
  | x :: xs => xs.foldl min x

/-- Python's `max` over a list, with an explicit default for the empty list. -/
def qMax (l : List ℚ) (dflt : ℚ) : ℚ :=
  match l with
  | [] => dflt
  | x :: xs => xs.foldl max x

/-- Arithmetic mean `sum(l) / len(l)` of a list of rationals. -/
def qAvg (l : List ℚ) : ℚ := l.sum / l.length

/-- Does `sub` start the character list `l`?  Building block for Python's
substring test. -/
def segStart : List Char → List Char → Bool
  | [], _ => true
  | _ :: _, [] => false
  | a :: as, b :: bs => a == b && segStart as bs

/-- Python's substring test `sub in s`, on character lists. -/
def containsSeg (sub : List Char) : List Char → Bool
  | [] => segStart sub []
  | h :: t => segStart sub (h :: t) || containsSeg sub t

/-- Lower-case one character the way Python's `str.lower` does on the
alphabets this codebase uses: ASCII plus the Cyrillic А‥Я block and Ё. -/
def lowerChar (c : Char) : Char :=
  if 'А' ≤ c ∧ c ≤ 'Я' then Char.ofNat (c.toNat + 32)
  else if c = 'Ё' then 'ё'
  else c.toLower

/-- Python's `s.lower()` for the alphabets used in the source. -/
def lowerStr (s : String) : String := String.mk (s.data.map lowerChar)

/-- Python's string comparison is lexicographic on code points; we compare the
underlying character lists (code-point order) because that order is
kernel-computable. -/
def strle (a b : String) : Prop := a.data ≤ b.data

instance : DecidableRel strle := fun a b => inferInstanceAs (Decidable (a.data ≤ b.data))

instance : IsTotal String strle := ⟨fun a b => le_total a.data b.data⟩

instance : IsTrans String strle := ⟨fun _ _ _ => le_trans⟩

/-- Python's `sorted` on a list of strings (ascending code-point order). -/
def sortStrings (l : List String) : List String := l.insertionSort strle

/-! ### Weather service (`src/services/weather.py`) -/

namespace Weather

/-- One entry of the provider's `data['list']`: a three-hour forecast sample.
The instant `datetime.fromtimestamp(item['dt'])` is abstracted into the two
strings the code derives from it: `dayIso` is `dt.date().isoformat()` (the
grouping key) and `dayFmt` is `dt.strftime("%d.%m.%Y")`.  `rain3h`/`snow3h`
model the optional `item['rain']['3h']` / `item['snow']['3h']` entries;
`none` means the provider omitted the key. -/
structure RawSample where
  dayIso : String
  dayFmt : String
  temp : ℚ
  feels_like : ℚ
  humidity : ℚ
  description : String
  wind_speed : ℚ
  rain3h : Option ℚ
  snow3h : Option ℚ
  deriving DecidableEq, Repr

/-- The provider's forecast payload: city block plus sample list. -/
structure RawForecast where
  cityName : String
  country : String
  list : List RawSample
  deriving DecidableEq, Repr

/-- The per-sample `precipitation` value:
`item.get('rain', {}).get('3h', 0) + item.get('snow', {}).get('3h', 0)`.
A missing key contributes the default `0`. -/
def samplePrecip (s : RawSample) : ℚ := s.rain3h.getD 0 + s.snow3h.getD 0

/-- One element of the processed `daily` list built by `_process_forecast`. -/
structure DayForecast where
  date : String
  date_iso : String
  temp_min : ℚ
  temp_max : ℚ
  feels_like : ℚ
  humidity : ℚ
  wind_speed : ℚ
  precipitation : ℚ
  description : String
  deriving DecidableEq, Repr

/-- The dictionary returned by `get_weather_forecast` / `_process_forecast`
(the derived `location` string is omitted: no claim reads it). -/
structure ProcessedForecast where
  city : String
  country : String
  daily : List DayForecast
  deriving DecidableEq, Repr

/-- One bucket of the `day_forecasts` grouping dictionary. -/
structure DayGroup where
  iso : String
  fmt : String
  samples : List RawSample
  deriving DecidableEq, Repr

/-- Insert one sample into the grouping dictionary, keyed by its calendar
day, preserving first-appearance order of the keys (Python dict order). -/
def addToGroups (acc : List DayGroup) (s : RawSample) : List DayGroup :=
  if acc.any (fun g => g.iso = s.dayIso) then
    acc.map (fun g =>
      if g.iso = s.dayIso then { g with samples := g.samples ++ [s] } else g)
  else acc ++ [⟨s.dayIso, s.dayFmt, [s]⟩]

/-- The `day_forecasts` grouping loop of `_process_forecast`. -/
def groupByDay (l : List RawSample) : List DayGroup := l.foldl addToGroups []

/-- Per-day aggregation of `_process_forecast`: min/max temperature, mean
feels-like and humidity, max wind, summed precipitation — each rounded to one
decimal place on the spot — plus the joined set of distinct descriptions.
Group sample lists are nonempty by construction, so the `qMin`/`qMax`
defaults and the `winds = []` branch (`max(wind_speeds) if wind_speeds else
0` in the source) are dead code.  Python joins `set(...)` in unspecified
order; we join the first-occurrence-deduplicated list of descriptions. -/
def dayAggregate (g : DayGroup) : DayForecast :=
  let temps := g.samples.map (·.temp)
  let winds := g.samples.map (·.wind_speed)
  { date := g.fmt
    date_iso := g.iso
    temp_min := pyRound1 (qMin temps 0)
    temp_max := pyRound1 (qMax temps 0)
    feels_like := pyRound1 (qAvg (g.samples.map (·.feels_like)))
    humidity := pyRound1 (qAvg (g.samples.map (·.humidity)))
    wind_speed := pyRound1 (if winds = [] then 0 else qMax winds 0)
    precipitation := pyRound1 ((g.samples.map samplePrecip).sum)
    description := String.intercalate ", " ((g.samples.map (·.description)).dedup) }

/-- The `_process_forecast` method: group samples by day, sort the groups by
ISO date key (`sorted(day_forecasts.items())`), keep the first
`days or 1` of them, and aggregate each. -/
def processForecast (data : RawForecast) (days : ℕ) : ProcessedForecast :=
  let groups := (groupByDay data.list).insertionSort (fun a b => a.iso.data ≤ b.iso.data)
  let keep := if days = 0 then 1 else days
  { city := data.cityName
    country := data.country
    daily := (groups.take keep).map dayAggregate }

/-- The external world of one `get_weather_forecast` call: whether the
network/JSON layer raises, the geocode response, and the forecast response. -/
structure WeatherEnv where
  netRaises : Bool
  geoStatus : ℕ
  geoLocations : List (ℚ × ℚ)
  forecastStatus : ℕ
  forecastData : RawForecast
  deriving DecidableEq, Repr

/-- The body of the `try` block in `get_weather_forecast`: each failing step
raises (modelled as `Except.error` carrying the message prefix). -/
def getWeatherForecastCore (env : WeatherEnv) (city : String) (days : ℕ) :
    Except String ProcessedForecast :=
  if env.netRaises then .error "network error"
  else if env.geoStatus ≠ 200 then .error "Failed to get city coordinates"
  else
    match env.geoLocations with
    | [] => .error ("City not found: " ++ city)
    | _ :: _ =>
      if env.forecastStatus ≠ 200 then .error "Failed to get weather forecast"
      else .ok (processForecast env.forecastData days)

/-- The `get_weather_forecast` method as the caller sees it: the enclosing
`except Exception` swallows every raised error and returns the empty
structure `{"city": city, "country": "", "daily": []}` instead. -/
def get_weather_forecast (env : WeatherEnv) (city : String) (days : ℕ) :
    ProcessedForecast :=
  match getWeatherForecastCore env city days with
  | .ok r => r
  | .error _ => { city := city, country := "", daily := [] }

/-- The fixed baseline of `get_packing_suggestions` (documents, chargers,
toiletries, first aid). -/
def baselineItems : List String :=
  ["Документы", "Зарядные устройства", "Туалетные принадлежности", "Аптечка"]

/-- Cold-weather additions (`min_temp < 10`). -/
def coldItems : List String :=
  ["Теплая куртка", "Шапка", "Перчатки", "Шарф", "Теплые носки"]

/-- Mild-weather additions (`10 <= min_temp < 20`). -/
def mildItems : List String :=
  ["Легкая куртка или кардиган", "Длинные брюки", "Кофта или свитер"]

/-- Hot-weather additions (`max_temp > 25`). -/
def hotItems : List String :=
  ["Солнцезащитный крем", "Солнцезащитные очки", "Головной убор от солнца",
   "Легкая одежда", "Шорты", "Футболки"]

/-- Rain additions. -/
def rainItems : List String := ["Зонт", "Дождевик", "Водонепроницаемая обувь"]

/-- The rain detection loop: some day's lower-cased description contains
"rain" or "дождь", or some day's precipitation exceeds 0.5.  The source
breaks out of the loop at the first hit, which is equivalent to `any`. -/
def hasRain (fd : List DayForecast) : Bool :=
  fd.any (fun day =>
    containsSeg "rain".data (lowerStr day.description).data
    || containsSeg "дождь".data (lowerStr day.description).data
    || decide (day.precipitation > 0.5))

/-- The `get_packing_suggestions` method.  With an empty `daily` list it
returns the bare baseline; otherwise it accumulates a set of items and
returns `sorted(list(suggestions))`, modelled as sort-after-dedup.  When
`daily` is nonempty every processed day carries the temperature keys, so the
source's `any('temp_min' in day ...)` test holds and its no-temperature
default branch is dead. -/
def get_packing_suggestions (forecast : ProcessedForecast) : List String :=
  let fd := forecast.daily
  if fd.isEmpty then baselineItems
  else
    let min_temp := qMin (fd.map (·.temp_min)) 999
    let max_temp := qMax (fd.map (·.temp_max)) (-999)
    let items := baselineItems
      ++ (if min_temp < 10 then coldItems
          else if min_temp < 20 then mildItems else [])
      ++ (if max_temp > 25 then hotItems else [])
      ++ (if hasRain fd then rainItems else [])
    sortStrings items.dedup

end Weather

/-! ### Checklist generation engine (`src/services/checklist_generator.py`) -/

namespace Generator

open Weather

/-- The `_get_basic_travel_items` fallback list (used only when
`get_packing_suggestions` raises, which our total model never does; kept for
fidelity of the data tables). -/
def basicTravelItems : List String :=
  ["Паспорт", "Деньги", "Банковские карты", "Телефон", "Зарядное устройство",
   "Наушники", "Зубная щетка и паста", "Расческа", "Дезодорант",
   "Нижнее белье", "Носки", "Пижама"]

/-- The `_get_purpose_specific_items` lookup table, keyed by
`purpose.lower()`; unknown purposes yield the empty list. -/
def purposeSpecificItems (purpose : String) : List String :=
  let key := lowerStr purpose
  if key = "business" then
    ["Ноутбук", "Деловой костюм", "Визитки", "Блокнот и ручка",
     "Портфель/сумка для ноутбука"]
  else if key = "beach" then
    ["Купальник/плавки", "Пляжное полотенце", "Солнцезащитный крем",
     "Солнцезащитные очки", "Шлепанцы", "Пляжная сумка"]
  else if key = "active" then
    ["Треккинговая обувь", "Рюкзак", "Фляжка для воды", "Компас",
     "Карта местности", "Походная аптечка", "Фонарик"]
  else if key = "other" then
    ["Удобная обувь для прогулок", "Фотоаппарат", "Путеводитель",
     "Легкий рюкзак", "Зонт"]
  else []

/-- The `_get_duration_specific_items` table: extras above 7 days and above
14 days. -/
def durationSpecificItems (duration : ℤ) : List String :=
  (if duration > 7 then
    ["Средства для стирки", "Запасные очки/линзы", "Дополнительный комплект обуви"]
   else [])
  ++ (if duration > 14 then
    ["Швейный набор", "Универсальное зарядное устройство", "Запасной телефон"]
   else [])

/-- The fixed bucket order of `_categorize_items` (Python dicts preserve
insertion order). -/
def allCategories : List String :=
  ["Документы и деньги", "Одежда", "Электроника", "Гигиена", "Аксессуары", "Прочее"]

/-- Keyword containment test of the categorizer: keyword `kw` occurs in the
lower-cased item title. -/
def kwHit (item kw : String) : Bool := containsSeg kw.data (lowerStr item).data

/-- First-match-wins category of one item, mirroring the loop over
`categorization_rules` in source order; no match routes to "Прочее". -/
def categoryFor (item : String) : String :=
  if ["паспорт", "виза", "деньги", "карты", "документы"].any (kwHit item) then
    "Документы и деньги"
  else if ["куртка", "брюки", "носки", "белье", "обувь", "костюм", "шапка",
           "одежда"].any (kwHit item) then "Одежда"
  else if ["телефон", "ноутбук", "зарядное", "наушники", "фотоаппарат"].any
      (kwHit item) then "Электроника"
  else if ["зубная", "расческа", "дезодорант", "шампунь", "полотенце",
           "гигиен"].any (kwHit item) then "Гигиена"
  else if ["очки", "зонт", "сумка", "рюкзак", "ремень"].any (kwHit item) then
    "Аксессуары"
  else "Прочее"

/-- The bucket a category ends up with: the items routed to it, sorted
(`categories[category].sort()`).  The source fills buckets in set-iteration
order and then sorts, which yields the sorted sublist independently of that
order. -/
def bucket (items : List String) (c : String) : List String :=
  sortStrings (items.filter (fun i => categoryFor i = c))

/-- The `_categorize_items` method: fixed buckets in fixed order, items
distributed first-match-wins, each bucket sorted, empty buckets dropped. -/
def categorizeItems (items : List String) : List (String × List String) :=
  (allCategories.map (fun c => (c, bucket items c))).filter
    (fun p => ¬ p.2.isEmpty)

/-- Outcome of the language-model generation attempt as
`generate_travel_checklist` observes it: a categories dictionary, an error
dictionary (`"error" in llm_result`), or a raised exception. -/
inductive LLMGenOutcome where
  | success (categories : List (String × List String))
  | errorResult (msg : String)
  | raises (msg : String)
  deriving DecidableEq, Repr

/-- The dictionary returned by `generate_travel_checklist`. -/
structure GenResult where
  destination : String
  duration : ℤ
  purpose : String
  categories : List (String × List String)
  generated_by : String
  llm_error : Option String
  deriving DecidableEq, Repr

/-- The `generate_travel_checklist` method.  `weatherArg` is the caller's
`weather_info` argument (`none` models a falsy value, refetched through the
weather service); `apiKeySet` is `bool(os.getenv("OPENAI_API_KEY"))`.  The
previous-lists personalization only shapes the model prompt, so it does not
appear in this value-level model.  On the rule path the three item lists are
unioned as a set (`dedup`) and categorized. -/
def generate_travel_checklist (apiKeySet : Bool) (llm : LLMGenOutcome)
    (wenv : WeatherEnv) (destination purpose : String) (duration : ℤ)
    (weatherArg : Option ProcessedForecast) : GenResult :=
  let weather_info :=
    match weatherArg with
    | some w => w
    | none => get_weather_forecast wenv destination 7
  let ruleBased (err : Option String) : GenResult :=
    let weather_items := get_packing_suggestions weather_info
    let purpose_items := purposeSpecificItems purpose
    let duration_items := durationSpecificItems duration
    let all_items := (weather_items ++ purpose_items ++ duration_items).dedup
    { destination := destination, duration := duration, purpose := purpose
      categories := categorizeItems all_items
      generated_by := "rules", llm_error := err }
  if apiKeySet then
    match llm with
    | .success cats =>
      { destination := destination, duration := duration, purpose := purpose
        categories := cats, generated_by := "llm", llm_error := none }
    | .errorResult m => ruleBased (some m)
    | .raises m => ruleBased (some m)
  else ruleBased none

end Generator

/-! ### Purpose classification (`src/services/llm_client.py`) -/

namespace LLM

/-- The JSON object extracted from the model's classification answer.
An `Option` field is `none` when the key is absent (the source also accepts
a present-but-`null` key; no claim depends on that distinction). -/
structure ParsedClassification where
  matched_category : Option String
  is_new_category : Option Bool
  new_category_name : Option String
  new_category_description : Option String
  deriving DecidableEq, Repr

/-- One call of `classify_trip_purpose` as the code branches on it: the API
key may be missing, `_make_openai_request` may return an error dictionary,
any step may raise, the response may lack choices, the JSON extraction may
fail, or a dictionary is extracted. -/
inductive ClassifyScenario where
  | noApiKey
  | requestErrorDict (msg : String)
  | requestRaises (msg : String)
  | noChoices
  | extractionFails
  | extracted (d : ParsedClassification)
  deriving DecidableEq, Repr

/-- What `classify_trip_purpose` returns: an error dictionary or a
classification dictionary. -/
inductive ClassifyResult where
  | errorDict (msg : String)
  | parsed (d : ParsedClassification)
  deriving DecidableEq, Repr

/-- The deterministic fallback dictionary
`{"matched_category": "other", "is_new_category": false, ...}`. -/
def otherFallback : ClassifyResult :=
  .parsed ⟨some "other", some false, none, none⟩

/-- The `classify_trip_purpose` method, branch by branch:
a missing API key returns the error dictionary `"OpenAI API key not
provided"`; an error dictionary from `_make_openai_request` is returned
unchanged (`return response`); a raised exception is caught by the outer
`except` and mapped to the fallback; a response without choices, a failed
extraction, and an extracted dictionary carrying neither
`matched_category` nor `is_new_category` are all mapped to the fallback;
any other extracted dictionary is returned as-is. -/
def classify_trip_purpose : ClassifyScenario → ClassifyResult
  | .noApiKey => .errorDict "OpenAI API key not provided"
  | .requestErrorDict m => .errorDict m
  | .requestRaises _ => otherFallback
  | .noChoices => otherFallback
  | .extractionFails => otherFallback
  | .extracted d =>
    if d.matched_category = none ∧ d.is_new_category = none then otherFallback
    else .parsed d

end LLM

/-! ### Conversation handlers (`src/handlers.py`) -/

namespace Handlers

open Weather LLM

/-- Conversation states of the handler module (`constants.py` names). -/
inductive ConvState where
  | waitingDestination
  | waitingStartDate
  | waitingDuration
  | waitingTripType
  | waitingNewItemName
  | ended
  deriving DecidableEq, Repr

/-- A calendar date as `datetime.strptime(s, "%d.%m.%Y")` produces it
(time fields all zero). -/
structure PDate where
  y : ℕ
  m : ℕ
  d : ℕ
  deriving DecidableEq, Repr

/-- Gregorian leap-year test. -/
def isLeap (y : ℕ) : Bool := (y % 4 = 0 && y % 100 ≠ 0) || y % 400 = 0

/-- Number of days of a month. -/
def daysInMonth (y m : ℕ) : ℕ :=
  if m = 2 then (if isLeap y then 29 else 28)
  else if m = 4 ∨ m = 6 ∨ m = 9 ∨ m = 11 then 30
  else 31

/-- The regular-expression gate of `handle_start_date`:
ten characters shaped `DD.MM.YYYY` with ASCII digits. -/
def matchesDatePattern (s : String) : Bool :=
  match s.data with
  | [a, b, c, d, e, f, g, h, i, j] =>
    a.isDigit && b.isDigit && c == '.' && d.isDigit && e.isDigit && f == '.'
      && g.isDigit && h.isDigit && i.isDigit && j.isDigit
  | _ => false

/-- Numeric value of a two-character digit pair. -/
def digits2 (a b : Char) : ℕ := (a.toNat - 48) * 10 + (b.toNat - 48)

/-- The `datetime.strptime(date_text, "%d.%m.%Y")` step, applied after the
pattern gate: fails (raises `ValueError`, here `none`) unless the fields
form a real calendar date with year at least 1. -/
def strptimeDDMMYYYY (s : String) : Option PDate :=
  match s.data with
  | [a, b, _, d, e, _, g, h, i, j] =>
    let dd := digits2 a b
    let mm := digits2 d e
    let yy := ((g.toNat - 48) * 1000 + (h.toNat - 48) * 100 + (i.toNat - 48) * 10
      + (j.toNat - 48))
    if 1 ≤ mm ∧ mm ≤ 12 ∧ 1 ≤ dd ∧ dd ≤ daysInMonth yy mm ∧ 1 ≤ yy then
      some ⟨yy, mm, dd⟩
    else none
  | _ => none

/-- Strict lexicographic order on calendar dates (the date component of
Python's `datetime` comparison). -/
def dateLt (p q : PDate) : Bool :=
  p.y < q.y || (p.y = q.y && (p.m < q.m || (p.m = q.m && p.d < q.d)))

/-- The comparison `start_date < datetime.now()` of `handle_start_date`.
The parsed date sits at midnight, so it is before "now" iff its calendar
day precedes today, or it is today and the current time is past midnight
(`nowPastMidnight`). -/
def parsedBeforeNow (p nowDay : PDate) (nowPastMidnight : Bool) : Bool :=
  dateLt p nowDay || (p = nowDay && nowPastMidnight)

/-- The slice of `context.user_data` that `handle_start_date` touches. -/
structure StartDateSession where
  start_date : Option String
  start_date_obj : Option PDate
  deriving DecidableEq, Repr

/-- The `handle_start_date` handler: re-prompt and stay in
`WAITING_START_DATE` when the pattern fails, when parsing fails, or when the
parsed date is before "now"; otherwise store the date (text and parsed
object) and move to `WAITING_DURATION`. -/
def handle_start_date (text : String) (nowDay : PDate) (nowPastMidnight : Bool)
    (sess : StartDateSession) : ConvState × StartDateSession :=
  if ¬ matchesDatePattern text then (.waitingStartDate, sess)
  else
    match strptimeDDMMYYYY text with
    | none => (.waitingStartDate, sess)
    | some p =>
      if parsedBeforeNow p nowDay nowPastMidnight then (.waitingStartDate, sess)
      else (.waitingDuration,
        { sess with start_date := some text, start_date_obj := some p })

/-- A row of the trip-purpose catalog (`TripPurpose` model: unique `name`,
`description`, `is_base`). -/
structure TripPurposeRow where
  name : String
  description : String
  is_base : Bool
  deriving DecidableEq, Repr

/-- The new-category block of `handle_trip_type` (its lines 310-331): when
the classifier proposes a new category with a truthy name, look the name up
with `filter_by(name=new_name)` — exact equality — and insert a non-base row
only when that lookup finds nothing; otherwise use the matched category,
defaulting to "other".  An error dictionary from the classifier carries
neither field, so it also resolves to "other".  Returns the resolved
`trip_type` and the catalog after any insertion. -/
def resolveTripType (catalog : List TripPurposeRow) (cr : ClassifyResult) :
    String × List TripPurposeRow :=
  match cr with
  | .errorDict _ => ("other", catalog)
  | .parsed d =>
    if d.is_new_category.getD false = true ∧ d.new_category_name.getD "" ≠ "" then
      let n := d.new_category_name.getD ""
      let desc :=
        match d.new_category_description with
        | some s => if s = "" then n else s
        | none => n
      if (catalog.find? (fun r => r.name == n)).isSome then (n, catalog)
      else (n, catalog ++ [⟨n, desc, false⟩])
    else (d.matched_category.getD "other", catalog)

/-- The `aggregated_weather` dictionary persisted inside `trip_metadata`.
The optional fields mirror the keys the JSON payload may carry; a key the
writer never emits is `none`. -/
structure AggregatedWeather where
  day_temp_range : Option (ℚ × ℚ)
  night_temp_range : Option (ℚ × ℚ)
  descriptions : List String
  avg_temp_min : Option ℚ
  avg_temp_max : Option ℚ
  avg_wind : Option ℚ
  max_wind : Option ℚ
  avg_precip : Option ℚ
  total_precip : Option ℚ
  deriving DecidableEq, Repr

/-- The aggregation block of `handle_duration` (its lines 151-206): collect
the per-day fields (every processed day carries all of them), then store
deduplicated descriptions, unrounded mean minima/maxima, the maximum wind,
and rounded mean/total precipitation; each numeric field is `None` when its
collection list is empty.  This revision writes no `day_temp_range`,
`night_temp_range` or `avg_wind` key. -/
def aggregateWeather (daily : List DayForecast) : AggregatedWeather :=
  let weather_description := daily.map (·.description)
  let temp_mins := daily.map (·.temp_min)
  let temp_maxs := daily.map (·.temp_max)
  let winds := daily.map (·.wind_speed)
  let precips := daily.map (·.precipitation)
  { day_temp_range := none
    night_temp_range := none
    descriptions := weather_description.dedup
    avg_temp_min := if temp_mins.isEmpty then none else some (qAvg temp_mins)
    avg_temp_max := if temp_maxs.isEmpty then none else some (qAvg temp_maxs)
    avg_wind := none
    max_wind := if winds.isEmpty then none else some (qMax winds 0)
    avg_precip :=
      if precips.isEmpty then none else some (pyRound1 (precips.sum / precips.length))
    total_precip := if precips.isEmpty then none else some (pyRound1 precips.sum) }

end Handlers

/-! ### Stored data and the entry points over it
(`src/handlers.py` view/edit handlers, `src/web/main.py` endpoints) -/

namespace Store

/-- A `users` row. -/
structure UserRow where
  id : ℤ
  telegram_id : ℤ
  deriving DecidableEq, Repr

/-- A `checklists` row (the fields the modelled entry points read). -/
structure ChecklistRow where
  id : ℤ
  owner_id : ℤ
  title : String
  deriving DecidableEq, Repr

/-- A `checklist_items` row. -/
structure ItemRow where
  id : ℤ
  checklist_id : ℤ
  title : String
  category : Option String
  ord : ℤ
  is_completed : Bool
  deriving DecidableEq, Repr

/-- The relational store, with the autoincrement counter for item ids. -/
structure DB where
  users : List UserRow
  checklists : List ChecklistRow
  items : List ItemRow
  nextItemId : ℤ
  deriving DecidableEq, Repr

/-- Lookup `query(User).filter_by(telegram_id=...).first()`. -/
def findUser (db : DB) (tg : ℤ) : Option UserRow :=
  db.users.find? (fun u => u.telegram_id == tg)

/-- Lookup `query(Checklist).filter_by(id=...).first()`. -/
def findChecklist (db : DB) (cid : ℤ) : Option ChecklistRow :=
  db.checklists.find? (fun c => c.id == cid)

/-- The `checklist.items` relationship. -/
def itemsOf (db : DB) (cid : ℤ) : List ItemRow :=
  db.items.filter (fun it => it.checklist_id == cid)

/-- What the bot's `view_checklist` handler replies with. -/
inductive BotView where
  | notFound
  | shown (title : String) (items : List ItemRow)
  deriving DecidableEq, Repr

/-- The bot's `view_checklist` handler (handlers.py lines 583-703): fetch the
checklist by id and, when it exists, render its metadata and items.  The
source performs no user lookup and no ownership comparison on this path. -/
def bot_view_checklist (db : DB) (_requesterTg : ℤ) (cid : ℤ) : BotView :=
  match findChecklist db cid with
  | none => .notFound
  | some cl => .shown cl.title (itemsOf db cid)

/-- Replies of the bot's mutating handlers. -/
inductive BotOutcome where
  | notFound
  | noAccess
  | contextError
  | crash
  | done
  deriving DecidableEq, Repr

/-- The bot's `handle_new_item_name` handler: missing/falsy context aborts;
a missing checklist is reported; a requester that does not resolve to the
owner gets the no-access reply with no change; otherwise the item is
appended with order `count + 1` within its category. -/
def bot_new_item_name (db : DB) (tg : ℤ) (ctxChecklist : Option ℤ)
    (ctxCategory : Option String) (itemName : String) : BotOutcome × DB :=
  let cidOk : Bool := match ctxChecklist with | some c => c != 0 | none => false
  let catOk : Bool := match ctxCategory with | some s => s != "" | none => false
  if cidOk && catOk then
    let cid := ctxChecklist.getD 0
    let cat := ctxCategory.getD ""
    match findChecklist db cid with
    | none => (.notFound, db)
    | some cl =>
      match findUser db tg with
      | none => (.noAccess, db)
      | some u =>
        if cl.owner_id ≠ u.id then (.noAccess, db)
        else
          let maxOrder :=
            (db.items.filter
              (fun it => it.checklist_id == cid && it.category == some cat)).length
          (.done,
            { db with
              items := db.items
                ++ [⟨db.nextItemId, cid, itemName, some cat, maxOrder + 1, false⟩]
              nextItemId := db.nextItemId + 1 })
  else (.contextError, db)

/-- The bot's `handle_delete_item` handler: fetch the item, then the user;
`not user_db or checklist.owner_id != user_db.id` short-circuits, so a
missing user is refused before the checklist row is dereferenced, while an
existing user with a dangling checklist reference would raise
(`crash`).  Only the owner reaches the deletion. -/
def bot_delete_item (db : DB) (tg : ℤ) (iid : ℤ) : BotOutcome × DB :=
  match db.items.find? (fun it => it.id == iid) with
  | none => (.notFound, db)
  | some it =>
    match findUser db tg with
    | none => (.noAccess, db)
    | some u =>
      match findChecklist db it.checklist_id with
      | none => (.crash, db)
      | some cl =>
        if cl.owner_id ≠ u.id then (.noAccess, db)
        else (.done, { db with items := db.items.eraseP (fun x => x.id == iid) })

/-- Responses of the web form endpoints. -/
inductive WebResp where
  | redirectSuccess
  | redirectError
  deriving DecidableEq, Repr

/-- The web `add_item` endpoint (`POST /edit/{id}/add-item`): no user
identity exists on this surface; any existing checklist is mutated.  The
`HTTPException` of the missing-checklist branch is caught by the endpoint's
own broad `except`, which rolls back and redirects with an error note. -/
def web_add_item (db : DB) (cid : ℤ) (itemName category : String) :
    WebResp × DB :=
  match findChecklist db cid with
  | none => (.redirectError, db)
  | some _ =>
    let maxOrder :=
      (db.items.filter
        (fun it => it.checklist_id == cid && it.category == some category)).length
    (.redirectSuccess,
      { db with
        items := db.items
          ++ [⟨db.nextItemId, cid, itemName, some category, maxOrder + 1, false⟩]
        nextItemId := db.nextItemId + 1 })

/-- The web `delete_item` endpoint (`POST /edit/{id}/delete-item`): again no
user identity; the item is looked up by id and checklist id only. -/
def web_delete_item (db : DB) (cid : ℤ) (iid : ℤ) : WebResp × DB :=
  match db.items.find? (fun it => it.id == iid && it.checklist_id == cid) with
  | none => (.redirectError, db)
  | some _ => (.redirectSuccess,
      { db with items := db.items.eraseP (fun x => x.id == iid && x.checklist_id == cid) })

end Store

/-! ### Web viewer weather rendering (`src/web/main.py`, view_checklist) -/

namespace Web

open Handlers

/-- One sentence of the weather paragraph the web viewer assembles; the
constructor arguments are exactly the dictionary values interpolated into
the corresponding f-string. -/
inductive WeatherLine where
  | dayRange (lo hi : ℚ)
  | nightRange (lo hi : ℚ)
  | descs (ds : List String)
  | wind (avg : ℚ) (mx : Option ℚ)
  | precip (avg : ℚ) (tot : Option ℚ)
  deriving DecidableEq, Repr

/-- Python truthiness of an optional number: a missing key and a stored `0`
are both falsy. -/
def truthyQ : Option ℚ → Option ℚ
  | some v => if v = 0 then none else some v
  | none => none

/-- The weather data-loading block of the web viewer (web/main.py lines
74-108): each line is emitted iff `weather.get(key)` is truthy, in source
order; the wind and precipitation lines carry their optional maximum/total
only when those are truthy in turn. -/
def webWeatherLines (w : AggregatedWeather) : List WeatherLine :=
  (match w.day_temp_range with
   | some p => [.dayRange p.1 p.2]
   | none => [])
  ++ (match w.night_temp_range with
      | some p => [.nightRange p.1 p.2]
      | none => [])
  ++ (if w.descriptions.isEmpty then [] else [.descs w.descriptions])
  ++ (match truthyQ w.avg_wind with
      | some v => [.wind v (truthyQ w.max_wind)]
      | none => [])
  ++ (match truthyQ w.avg_precip with
      | some v => [.precip v (truthyQ w.total_precip)]
      | none => [])

end Web

/-! ### Helper lemmas -/

lemma mem_sortStrings {a : String} {l : List String} :
    a ∈ sortStrings l ↔ a ∈ l :=
  (List.perm_insertionSort strle l).mem_iff

lemma sortStrings_sorted (l : List String) : (sortStrings l).Sorted strle :=
  List.sorted_insertionSort strle l

lemma sortStrings_nodup {l : List String} (h : l.Nodup) :
    (sortStrings l).Nodup :=
  ((List.perm_insertionSort strle l).nodup_iff).mpr h

namespace Generator

lemma categoryFor_mem (t : String) : categoryFor t ∈ allCategories := by
  unfold categoryFor allCategories
  split_ifs <;> simp

lemma mem_bucket_iff {t : String} {items : List String} {c : String} :
    t ∈ bucket items c ↔ categoryFor t = c ∧ t ∈ items := by
  unfold bucket
  rw [mem_sortStrings, List.mem_filter]
  simp [and_comm]

lemma mem_categorizeItems_iff {p : String × List String} {items : List String} :
    p ∈ categorizeItems items ↔
      ∃ c ∈ allCategories, p = (c, bucket items c) ∧ ¬ (bucket items c).isEmpty := by
  unfold categorizeItems
  rw [List.mem_filter, List.mem_map]
  constructor
  · rintro ⟨⟨c, hc, rfl⟩, hq⟩
    exact ⟨c, hc, rfl, by simpa using hq⟩
  · rintro ⟨c, hc, rfl, hq⟩
    exact ⟨⟨c, hc, rfl⟩, by simpa using hq⟩

lemma bucket_mem_categorize {t : String} {items : List String} (ht : t ∈ items) :
    (categoryFor t, bucket items (categoryFor t)) ∈ categorizeItems items
      ∧ t ∈ bucket items (categoryFor t) := by
  have htb : t ∈ bucket items (categoryFor t) := mem_bucket_iff.mpr ⟨rfl, ht⟩
  refine ⟨mem_categorizeItems_iff.mpr ⟨categoryFor t, categoryFor_mem t, rfl, ?_⟩, htb⟩
  simp only [List.isEmpty_iff]
  exact List.ne_nil_of_mem htb

end Generator

/-! ### C10 — the rule-based categorizer is a sorted partition -/

/-- C10: for every duplicate-free list of item titles handed to
`_categorize_items`, every input title lands in exactly one category list of
the result, every category present in the result is non-empty, its list has
no duplicates, is sorted ascending, and contains only input titles. -/
theorem categorize_items_partition (items : List String) (h : items.Nodup) :
    (∀ t ∈ items, ∃! p : String × List String,
        p ∈ Generator.categorizeItems items ∧ t ∈ p.2)
    ∧ ∀ p ∈ Generator.categorizeItems items,
        p.2 ≠ [] ∧ p.2.Nodup ∧ p.2.Sorted strle ∧ ∀ t ∈ p.2, t ∈ items := by
  constructor
  · intro t ht
    obtain ⟨hp, htb⟩ := Generator.bucket_mem_categorize ht
    refine ⟨(Generator.categoryFor t, Generator.bucket items (Generator.categoryFor t)),
      ⟨hp, htb⟩, ?_⟩
    rintro p ⟨hmem, htl⟩
    obtain ⟨c, _, rfl, _⟩ := Generator.mem_categorizeItems_iff.mp hmem
    have hcat : Generator.categoryFor t = c :=
      (Generator.mem_bucket_iff.mp htl).1
    subst hcat
    rfl
  · intro p hp
    obtain ⟨c, _, rfl, hne⟩ := Generator.mem_categorizeItems_iff.mp hp
    refine ⟨?_, ?_, sortStrings_sorted _, ?_⟩
    · simpa [List.isEmpty_iff] using hne
    · exact sortStrings_nodup (List.Nodup.filter _ h)
    · intro t htl
      exact (Generator.mem_bucket_iff.mp htl).2

/-- Witness for C10 at a concrete item set. -/
theorem categorize_items_partition_witness :
    ∃! p : String × List String,
      p ∈ Generator.categorizeItems ["Паспорт", "Зонт", "Аптечка"] ∧ "Зонт" ∈ p.2 :=
  (categorize_items_partition ["Паспорт", "Зонт", "Аптечка"] (by decide)).1
    "Зонт" (by decide)

/-! ### C1 — the engine's rule fallback always contains the baseline -/

lemma baseline_mem_suggestions {f : Weather.ProcessedForecast} {b : String}
    (hb : b ∈ Weather.baselineItems) : b ∈ Weather.get_packing_suggestions f := by
  unfold Weather.get_packing_suggestions
  by_cases h : f.daily.isEmpty
  · simpa [h] using hb
  · rw [if_neg (by simpa using h), mem_sortStrings, List.mem_dedup]
    exact List.mem_append_left _ (List.mem_append_left _ (List.mem_append_left _ hb))

lemma categorize_covers {items : List String} {b : String} (hb : b ∈ items) :
    ∃ p ∈ Generator.categorizeItems items, b ∈ p.2 :=
  let ⟨hp, hbb⟩ := Generator.bucket_mem_categorize hb
  ⟨_, hp, hbb⟩

lemma fallback_core (wf : Weather.ProcessedForecast) (purpose : String)
    (duration : ℤ) :
    Generator.categorizeItems
        ((Weather.get_packing_suggestions wf ++ Generator.purposeSpecificItems purpose
          ++ Generator.durationSpecificItems duration).dedup) ≠ []
      ∧ ∀ b ∈ Weather.baselineItems,
          ∃ p ∈ Generator.categorizeItems
              ((Weather.get_packing_suggestions wf
                ++ Generator.purposeSpecificItems purpose
                ++ Generator.durationSpecificItems duration).dedup), b ∈ p.2 := by
  have hmem : ∀ b ∈ Weather.baselineItems,
      b ∈ (Weather.get_packing_suggestions wf ++ Generator.purposeSpecificItems purpose
        ++ Generator.durationSpecificItems duration).dedup := by
    intro b hb
    exact List.mem_dedup.mpr
      (List.mem_append_left _ (List.mem_append_left _ (baseline_mem_suggestions hb)))
  constructor
  · obtain ⟨p, hp, _⟩ := categorize_covers (hmem "Документы" (by decide))
    exact List.ne_nil_of_mem hp
  · intro b hb
    exact categorize_covers (hmem b hb)

/-- C1: whenever the language model is unavailable (no API key) or its call
fails (error dictionary or raised exception), and the caller passes no
weather summary, `generate_travel_checklist` still returns a rule-generated
result whose categories mapping is non-empty and contains all four baseline
items (documents, chargers, toiletries, first aid) — for every destination,
purpose string, duration and weather-provider behaviour. -/
theorem generate_fallback_baseline (apiKeySet : Bool)
    (llm : Generator.LLMGenOutcome) (wenv : Weather.WeatherEnv)
    (destination purpose : String) (duration : ℤ)
    (hfail : apiKeySet = false ∨ (∃ m, llm = .errorResult m)
      ∨ (∃ m, llm = .raises m)) :
    (Generator.generate_travel_checklist apiKeySet llm wenv destination purpose
        duration none).generated_by = "rules"
    ∧ (Generator.generate_travel_checklist apiKeySet llm wenv destination purpose
        duration none).categories ≠ []
    ∧ ∀ b ∈ Weather.baselineItems,
        ∃ p ∈ (Generator.generate_travel_checklist apiKeySet llm wenv destination
            purpose duration none).categories, b ∈ p.2 := by
  have hcore := fallback_core (Weather.get_weather_forecast wenv destination 7)
    purpose duration
  rcases hfail with rfl | ⟨m, rfl⟩ | ⟨m, rfl⟩
  · exact ⟨rfl, hcore.1, hcore.2⟩
  · cases apiKeySet
    · exact ⟨rfl, hcore.1, hcore.2⟩
    · exact ⟨rfl, hcore.1, hcore.2⟩
  · cases apiKeySet
    · exact ⟨rfl, hcore.1, hcore.2⟩
    · exact ⟨rfl, hcore.1, hcore.2⟩

/-- A concrete weather environment for witnesses: geocode and forecast
succeed but the forecast carries no samples. -/
def demoEnv : Weather.WeatherEnv :=
  ⟨false, 200, [(1, 2)], 200, ⟨"Лиссабон", "PT", []⟩⟩

/-- Witness for C1: a concrete failing-model call. -/
theorem generate_fallback_baseline_witness :
    (Generator.generate_travel_checklist true (.errorResult "Rate limit exceeded")
        demoEnv "Лиссабон" "пляж" 5 none).generated_by = "rules"
    ∧ (Generator.generate_travel_checklist true (.errorResult "Rate limit exceeded")
        demoEnv "Лиссабон" "пляж" 5 none).categories ≠ []
    ∧ ∀ b ∈ Weather.baselineItems,
        ∃ p ∈ (Generator.generate_travel_checklist true
            (.errorResult "Rate limit exceeded") demoEnv "Лиссабон" "пляж" 5
            none).categories, b ∈ p.2 :=
  generate_fallback_baseline true (.errorResult "Rate limit exceeded") demoEnv
    "Лиссабон" "пляж" 5 (Or.inr (Or.inl ⟨"Rate limit exceeded", rfl⟩))

/-! ### C7 — weather failures are swallowed, not surfaced -/

/-- Environment in which the geocode step returns zero matches. -/
def geoMissEnv : Weather.WeatherEnv := ⟨false, 200, [], 200, ⟨"Атлантида", "", []⟩⟩

/-- Environment in which every step succeeds but the forecast has no
samples. -/
def okEmptyEnv : Weather.WeatherEnv :=
  ⟨false, 200, [(1, 2)], 200, ⟨"Атлантида", "", []⟩⟩

/-- C7 counterexample: on a zero-match geocode the inner step does raise
City-not-found, but `get_weather_forecast` returns to its caller the very
same normal-shaped value that a fully successful call (with an empty sample
list) returns — no `LocationNotFound` or `WeatherUnavailable` failure is
surfaced, contradicting the claim that a failing step surfaces a failure
rather than a normal-looking result. -/
theorem weather_failure_not_surfaced_counterexample :
    Weather.getWeatherForecastCore geoMissEnv "Атлантида" 7
        = .error "City not found: Атлантида"
    ∧ Weather.get_weather_forecast geoMissEnv "Атлантида" 7
        = Weather.get_weather_forecast okEmptyEnv "Атлантида" 7
    ∧ Weather.getWeatherForecastCore okEmptyEnv "Атлантида" 7
        = .ok ⟨"Атлантида", "", []⟩ := by
  refine ⟨rfl, ?_, rfl⟩
  rfl

/-- C7 amended: a zero-match geocode raises `City not found` inside the
`try` body, and every failing step produces an internal error — but the
enclosing handler converts any such error into the normal-shaped result
`{"city": city, "country": "", "daily": []}`, so the caller of
`get_weather_forecast` never observes a failure. -/
theorem weather_failure_swallowed (env : Weather.WeatherEnv) (city : String)
    (days : ℕ) (hn : env.netRaises = false) (hs : env.geoStatus = 200)
    (hg : env.geoLocations = []) :
    Weather.getWeatherForecastCore env city days
        = .error ("City not found: " ++ city)
    ∧ ∀ e, Weather.getWeatherForecastCore env city days = .error e →
        Weather.get_weather_forecast env city days = ⟨city, "", []⟩ := by
  constructor
  · unfold Weather.getWeatherForecastCore
    rw [hn, hs, hg]
    simp
  · intro e he
    unfold Weather.get_weather_forecast
    rw [he]

/-- Witness for C7's amended statement at the concrete environment. -/
theorem weather_failure_swallowed_witness :
    Weather.getWeatherForecastCore geoMissEnv "Атлантида" 7
        = .error ("City not found: " ++ "Атлантида")
    ∧ ∀ e, Weather.getWeatherForecastCore geoMissEnv "Атлантида" 7 = .error e →
        Weather.get_weather_forecast geoMissEnv "Атлантида" 7 = ⟨"Атлантида", "", []⟩ :=
  weather_failure_swallowed geoMissEnv "Атлантида" 7 rfl rfl rfl

/-! ### C3 — the start-date gate accepts "today at midnight" -/

/-- C3 counterexample: when "now" is exactly midnight of 12.10.2026
(`nowPastMidnight = false`), the input "12.10.2026" parses to a date that is
not strictly after the current moment, yet `handle_start_date` advances to
the duration state and stores it — the claim requires the machine to stay in
`AwaitingStartDate` for any date at or before now. -/
theorem handle_start_date_counterexample :
    Handlers.handle_start_date "12.10.2026" ⟨2026, 10, 12⟩ false ⟨none, none⟩
        = (.waitingDuration, ⟨some "12.10.2026", some ⟨2026, 10, 12⟩⟩)
    ∧ Handlers.strptimeDDMMYYYY "12.10.2026" = some ⟨2026, 10, 12⟩
    ∧ Handlers.dateLt ⟨2026, 10, 12⟩ ⟨2026, 10, 12⟩ = false := by
  refine ⟨?_, by decide, by decide⟩
  decide

/-- C3 amended: `handle_start_date` advances to `AwaitingDuration` and
stores the date exactly when the input matches the `DD.MM.YYYY` pattern,
parses to a real calendar date, and that date is not strictly before the
current moment (so a date equal to "now" — midnight of today observed
exactly at midnight — is accepted, unlike the claim's strictly-after rule);
on a pattern miss, a parse failure, or a strictly-past date the state stays
`AwaitingStartDate` and the session fields are left untouched. -/
theorem handle_start_date_spec (text : String) (nowDay : Handlers.PDate)
    (nowT : Bool) (sess : Handlers.StartDateSession) :
    (Handlers.matchesDatePattern text = true →
      ∀ p, Handlers.strptimeDDMMYYYY text = some p →
      Handlers.parsedBeforeNow p nowDay nowT = false →
      Handlers.handle_start_date text nowDay nowT sess
        = (.waitingDuration, ⟨some text, some p⟩))
    ∧ (Handlers.matchesDatePattern text = false →
      Handlers.handle_start_date text nowDay nowT sess = (.waitingStartDate, sess))
    ∧ (Handlers.strptimeDDMMYYYY text = none →
      Handlers.handle_start_date text nowDay nowT sess = (.waitingStartDate, sess))
    ∧ (∀ p, Handlers.strptimeDDMMYYYY text = some p →
      Handlers.parsedBeforeNow p nowDay nowT = true →
      Handlers.handle_start_date text nowDay nowT sess = (.waitingStartDate, sess)) := by
  refine ⟨?_, ?_, ?_, ?_⟩
  · intro hm p hp hlt
    unfold Handlers.handle_start_date
    rw [hm]
    simp [hp, hlt]
  · intro hm
    unfold Handlers.handle_start_date
    rw [hm]
    simp
  · intro hp
    unfold Handlers.handle_start_date
    by_cases hm : Handlers.matchesDatePattern text
    · rw [hm]; simp [hp]
    · simp [hm]
  · intro p hp hlt
    unfold Handlers.handle_start_date
    by_cases hm : Handlers.matchesDatePattern text
    · rw [hm]; simp [hp, hlt]
    · simp [hm]

/-- Witness for C3's amended statement: a strictly-future date advances. -/
theorem handle_start_date_spec_witness :
    Handlers.handle_start_date "13.10.2026" ⟨2026, 10, 12⟩ true ⟨none, none⟩
      = (.waitingDuration, ⟨some "13.10.2026", some ⟨2026, 10, 13⟩⟩) :=
  (handle_start_date_spec "13.10.2026" ⟨2026, 10, 12⟩ true ⟨none, none⟩).1
    (by decide) ⟨2026, 10, 13⟩ (by decide) (by decide)

/-! ### C4 — classification fallback vs. provider-error dictionaries -/

/-- C4 counterexample: when the provider call fails (error dictionary from
the request helper, e.g. a rate-limit or API error), `classify_trip_purpose`
returns that error dictionary unchanged — not a result with
matched_category "other" as the claim requires for provider-call
failures. -/
theorem classify_provider_error_counterexample :
    LLM.classify_trip_purpose (.requestErrorDict "API error: boom")
        = .errorDict "API error: boom"
    ∧ LLM.classify_trip_purpose (.requestErrorDict "API error: boom")
        ≠ LLM.otherFallback := by
  exact ⟨rfl, by decide⟩

/-- C4 amended: `classify_trip_purpose` never raises (every modelled branch
returns a value); a raised exception, a response without choices, a failed
JSON extraction, and an extracted dictionary carrying neither
`matched_category` nor `is_new_category` all map to the deterministic
fallback `{"matched_category": "other", "is_new_category": false}` — but a
provider call that fails with an error dictionary (and a missing API key)
returns an error dictionary instead of the "other" fallback. -/
theorem classify_failure_behaviour (m : String) (d : LLM.ParsedClassification) :
    LLM.classify_trip_purpose (.requestRaises m) = LLM.otherFallback
    ∧ LLM.classify_trip_purpose .noChoices = LLM.otherFallback
    ∧ LLM.classify_trip_purpose .extractionFails = LLM.otherFallback
    ∧ (d.matched_category = none → d.is_new_category = none →
        LLM.classify_trip_purpose (.extracted d) = LLM.otherFallback)
    ∧ LLM.classify_trip_purpose (.requestErrorDict m) = .errorDict m
    ∧ LLM.classify_trip_purpose .noApiKey
        = .errorDict "OpenAI API key not provided" := by
  refine ⟨rfl, rfl, rfl, ?_, rfl, rfl⟩
  intro h1 h2
  unfold LLM.classify_trip_purpose
  simp [h1, h2]

/-- Witness for C4's amended statement: an extracted dictionary with neither
required field falls back to "other". -/
theorem classify_failure_behaviour_witness :
    LLM.classify_trip_purpose (.extracted ⟨none, none, none, none⟩)
      = LLM.otherFallback :=
  (classify_failure_behaviour "boom" ⟨none, none, none, none⟩).2.2.2.1 rfl rfl

/-! ### C9 — new-category duplicate check is exact, not case-normalized -/

/-- The seeded catalog rows involved in the C9 counterexample. -/
def beachCatalog : List Handlers.TripPurposeRow := [⟨"beach", "Пляжный отдых", true⟩]

/-- C9 counterexample: the catalog already holds "beach", the classifier
proposes "Beach" — a case-normalized duplicate — and `handle_trip_type`
still inserts a second row, because its lookup `filter_by(name=new_name)`
compares names exactly.  The claim requires the existing entry to be reused
for a duplicate under any letter casing. -/
theorem trip_purpose_case_counterexample :
    Handlers.resolveTripType beachCatalog
        (.parsed ⟨none, some true, some "Beach", some "Пляжный отдых"⟩)
      = ("Beach", beachCatalog ++ [⟨"Beach", "Пляжный отдых", false⟩])
    ∧ lowerStr "Beach" = lowerStr "beach" := by
  constructor
  · rfl
  · decide

/-- C9 amended: when the classifier proposes a new category with a truthy
name, the catalog is consulted with an exact (case-sensitive) name match:
an exactly matching row is reused silently and nothing is inserted, while
any name with no exact match — including one differing only in letter
casing from an existing row — is inserted as a new non-base row. -/
theorem resolveTripType_exact_duplicate (catalog : List Handlers.TripPurposeRow)
    (d : LLM.ParsedClassification) (n : String)
    (hnew : d.is_new_category = some true) (hn : d.new_category_name = some n)
    (hne : n ≠ "") :
    ((catalog.find? (fun r => r.name == n)).isSome = true →
      Handlers.resolveTripType catalog (.parsed d) = (n, catalog))
    ∧ ((catalog.find? (fun r => r.name == n)).isSome = false →
      Handlers.resolveTripType catalog (.parsed d)
        = (n, catalog ++ [⟨n,
            match d.new_category_description with
            | some s => if s = "" then n else s
            | none => n, false⟩])) := by
  constructor
  · intro hfound
    simp [Handlers.resolveTripType, hnew, hn, hne, hfound]
  · intro hfound
    simp [Handlers.resolveTripType, hnew, hn, hne, hfound]

/-- Witness for C9's amended statement: a genuinely new name is inserted. -/
theorem resolveTripType_exact_duplicate_witness :
    Handlers.resolveTripType beachCatalog
        (.parsed ⟨none, some true, some "diving", some "Дайвинг"⟩)
      = ("diving", beachCatalog ++ [⟨"diving", "Дайвинг", false⟩]) := by
  have h := (resolveTripType_exact_duplicate beachCatalog
    ⟨none, some true, some "diving", some "Дайвинг"⟩ "diving" rfl rfl
    (by decide)).2 (by decide)
  exact h

/-! ### C2 — ownership is not checked by the view handler or web endpoints -/

/-- A store with two users; user 1 owns checklist 10, user 2 does not. -/
def demoDb : Store.DB :=
  { users := [⟨1, 100⟩, ⟨2, 200⟩]
    checklists := [⟨10, 1, "Лиссабон с 25.06.2025"⟩]
    items := [⟨5, 10, "Паспорт", some "Документы и деньги", 1, false⟩]
    nextItemId := 6 }

/-- C2 counterexample: telegram user 200 resolves to user id 2, which is not
the owner of checklist 10 — yet the bot's view handler discloses the
checklist's title and items to them instead of a no-access reply, and the
web add-item endpoint (which receives no user identity at all) mutates the
checklist's items.  The claim requires every view/add entry point to refuse
and to leave the store unchanged. -/
theorem ownership_counterexample :
    Store.findUser demoDb 200 = some ⟨2, 200⟩
    ∧ Store.findChecklist demoDb 10 = some ⟨10, 1, "Лиссабон с 25.06.2025"⟩
    ∧ Store.bot_view_checklist demoDb 200 10
        = .shown "Лиссабон с 25.06.2025"
            [⟨5, 10, "Паспорт", some "Документы и деньги", 1, false⟩]
    ∧ (Store.web_add_item demoDb 10 "Квадрокоптер" "Прочее").1
        = .redirectSuccess
    ∧ (Store.web_add_item demoDb 10 "Квадрокоптер" "Прочее").2.items
        = demoDb.items ++ [⟨6, 10, "Квадрокоптер", some "Прочее", 1, false⟩] := by
  refine ⟨rfl, rfl, rfl, rfl, ?_⟩
  decide

/-- C2 amended: the bot's mutating handlers (delete item, add item by name)
do enforce ownership — a requester that does not resolve to a user, or
resolves to a non-owner, receives the no-access reply and the store is
unchanged — but the bot's view handler renders any existing checklist to
any requester without consulting the user table, and the identity-free web
add-item endpoint appends an item to any existing checklist. -/
theorem ownership_checks (db : Store.DB) (tg iid cid : ℤ)
    (itemName category : String) :
    (∀ it, db.items.find? (fun x => x.id == iid) = some it →
      ∀ u, Store.findUser db tg = some u →
      ∀ cl, Store.findChecklist db it.checklist_id = some cl →
      cl.owner_id ≠ u.id →
      Store.bot_delete_item db tg iid = (.noAccess, db))
    ∧ (∀ it, db.items.find? (fun x => x.id == iid) = some it →
      Store.findUser db tg = none →
      Store.bot_delete_item db tg iid = (.noAccess, db))
    ∧ (cid ≠ 0 → category ≠ "" →
      ∀ cl, Store.findChecklist db cid = some cl →
      ∀ u, Store.findUser db tg = some u →
      cl.owner_id ≠ u.id →
      Store.bot_new_item_name db tg (some cid) (some category) itemName
        = (.noAccess, db))
    ∧ (∀ cl, Store.findChecklist db cid = some cl →
      Store.bot_view_checklist db tg cid = .shown cl.title (Store.itemsOf db cid))
    ∧ (∀ cl, Store.findChecklist db cid = some cl →
      (Store.web_add_item db cid itemName category).2.items
        = db.items ++ [⟨db.nextItemId, cid, itemName, some category,
            (db.items.filter (fun it =>
              it.checklist_id == cid && it.category == some category)).length + 1,
            false⟩]) := by
  refine ⟨?_, ?_, ?_, ?_, ?_⟩
  · intro it hit u hu cl hcl hown
    simp [Store.bot_delete_item, hit, hu, hcl, hown]
  · intro it hit hu
    simp [Store.bot_delete_item, hit, hu]
  · intro hcid hcat cl hcl u hu hown
    simp [Store.bot_new_item_name, hcid, hcat, hcl, hu, hown]
  · intro cl hcl
    simp [Store.bot_view_checklist, hcl]
  · intro cl hcl
    simp [Store.web_add_item, hcl]

/-- Witness for C2's amended statement: the non-owner's delete attempt on
the demo store is refused without mutation. -/
theorem ownership_checks_witness :
    Store.bot_delete_item demoDb 200 5 = (.noAccess, demoDb) :=
  (ownership_checks demoDb 200 5 10 "x" "y").1
    ⟨5, 10, "Паспорт", some "Документы и деньги", 1, false⟩ (by decide)
    ⟨2, 200⟩ (by decide) ⟨10, 1, "Лиссабон с 25.06.2025"⟩ (by decide) (by decide)

/-! ### C6 — missing precipitation data is defaulted to 0 -/

lemma pyRound1_zero : pyRound1 0 = 0 := by
  simp [pyRound1, pyRoundInt]

/-- A forecast sample in which the provider reported no rain/snow data. -/
def sampleNoPrecipData : Weather.RawSample :=
  ⟨"2026-10-12", "12.10.2026", 15, 14, 60, "clear sky", 3, none, none⟩

/-- The same sample reporting a measured zero precipitation volume. -/
def sampleZeroPrecip : Weather.RawSample :=
  ⟨"2026-10-12", "12.10.2026", 15, 14, 60, "clear sky", 3, some 0, none⟩

/-- C6 counterexample: a day whose only sample carries no precipitation
data at all aggregates to exactly the same processed forecast as a day with
a measured zero precipitation volume, and its `precipitation` field holds
the present value `0` rather than an absent marker — so zero measured
precipitation is not distinguishable from missing precipitation data,
against the claim. -/
theorem precip_default_counterexample :
    Weather.processForecast ⟨"Лиссабон", "PT", [sampleNoPrecipData]⟩ 7
      = Weather.processForecast ⟨"Лиссабон", "PT", [sampleZeroPrecip]⟩ 7
    ∧ (Weather.processForecast ⟨"Лиссабон", "PT", [sampleNoPrecipData]⟩ 7).daily.map
        (·.precipitation) = [0] := by
  constructor
  · rfl
  · simp [Weather.processForecast, Weather.groupByDay, Weather.addToGroups,
      Weather.dayAggregate, Weather.samplePrecip, sampleNoPrecipData,
      List.insertionSort, pyRound1_zero]

/-- C6 amended: in the trip-level `aggregated_weather` record each numeric
field is `none` exactly when there is no forecast day to derive it from
(every processed day carries all the numeric keys, so the collection lists
are empty only for an empty `daily`); the per-day `precipitation` field, by
contrast, is always present, with per-sample missing rain/snow volumes
silently defaulted to 0, so a measured zero is not distinguishable from
absent data there. -/
theorem aggregated_fields_present_iff (daily : List Weather.DayForecast) :
    ((Handlers.aggregateWeather daily).avg_temp_min = none ↔ daily = [])
    ∧ ((Handlers.aggregateWeather daily).avg_temp_max = none ↔ daily = [])
    ∧ ((Handlers.aggregateWeather daily).max_wind = none ↔ daily = [])
    ∧ ((Handlers.aggregateWeather daily).avg_precip = none ↔ daily = [])
    ∧ ((Handlers.aggregateWeather daily).total_precip = none ↔ daily = []) := by
  unfold Handlers.aggregateWeather
  cases daily <;> simp

/-! ### C8 — rounding is applied to the per-day aggregates themselves -/

/-- The per-day unrounded temperature minima of the forecast, exactly as
step 3 of the spec's aggregation would keep them: the same grouping,
ordering and day-window as `_process_forecast`, but without the rounding.
This definition follows the specification's wording and exists to be
compared against the implementation. -/
def specUnroundedDailyMins (data : Weather.RawForecast) (days : ℕ) : List ℚ :=
  let groups := (Weather.groupByDay data.list).insertionSort
    (fun a b => a.iso.data ≤ b.iso.data)
  let keep := if days = 0 then 1 else days
  (groups.take keep).map (fun g => qMin (g.samples.map (·.temp)) 0)

/-- Trip-level mean of the unrounded per-day minima — what the claim says
the stored statistic should be computed from. -/
def specAvgOfUnroundedMins (data : Weather.RawForecast) (days : ℕ) : Option ℚ :=
  if (specUnroundedDailyMins data days).isEmpty then none
  else some (qAvg (specUnroundedDailyMins data days))

/-- A forecast whose only sample has temperature 10.04 °C. -/
def roundDemoData : Weather.RawForecast :=
  ⟨"Лиссабон", "PT",
   [⟨"2026-10-12", "12.10.2026", 251/25, 10, 50, "clear sky", 2, none, none⟩]⟩

lemma pyRound1_demo : pyRound1 (251/25) = 10 := by
  norm_num [pyRound1, pyRoundInt, round_eq, Int.floor_eq_iff]

/-- C8 counterexample: with a single day whose minimum temperature is
10.04 °C, the pipeline stores the trip statistic `avg_temp_min = 10`
(computed over the per-day value already rounded to one decimal inside
`_process_forecast`), while the same statistic over the unrounded per-day
aggregate is 10.04 — so a trip-level statistic is computed over
already-rounded values, against the claim. -/
theorem rounded_aggregates_counterexample :
    (Handlers.aggregateWeather
        (Weather.processForecast roundDemoData 7).daily).avg_temp_min = some 10
    ∧ specAvgOfUnroundedMins roundDemoData 7 = some (251/25)
    ∧ (10 : ℚ) ≠ 251/25 := by
  refine ⟨?_, ?_, by norm_num⟩
  · simp [Handlers.aggregateWeather, Weather.processForecast, Weather.groupByDay,
      Weather.addToGroups, Weather.dayAggregate, roundDemoData,
      List.insertionSort, qMin, pyRound1_demo, qAvg]
  · simp [specAvgOfUnroundedMins, specUnroundedDailyMins, Weather.groupByDay,
      Weather.addToGroups, roundDemoData, List.insertionSort, qAvg, qMin]

/-- C8 amended: `_process_forecast` applies the one-decimal rounding to the
per-day aggregates themselves, so every numeric field of every processed day
is a multiple of one tenth, and the trip-level statistics of
`handle_duration` are therefore computed over already-rounded values (the
counterexample shows they can differ from the statistics over the unrounded
aggregates). -/
theorem daily_fields_quantized (data : Weather.RawForecast) (days : ℕ)
    (d : Weather.DayForecast)
    (hd : d ∈ (Weather.processForecast data days).daily) :
    (∃ k : ℤ, d.temp_min = k / 10) ∧ (∃ k : ℤ, d.temp_max = k / 10)
    ∧ (∃ k : ℤ, d.feels_like = k / 10) ∧ (∃ k : ℤ, d.wind_speed = k / 10)
    ∧ (∃ k : ℤ, d.precipitation = k / 10) := by
  have hd2 : d ∈ (((Weather.groupByDay data.list).insertionSort
      (fun a b => a.iso.data ≤ b.iso.data)).take
        (if days = 0 then 1 else days)).map Weather.dayAggregate := by
    simpa only [Weather.processForecast] using hd
  obtain ⟨g, -, rfl⟩ := List.mem_map.mp hd2
  exact ⟨⟨_, rfl⟩, ⟨_, rfl⟩, ⟨_, rfl⟩, ⟨_, rfl⟩, ⟨_, rfl⟩⟩

/-- Witness for C8's amended statement at the demo forecast. -/
theorem daily_fields_quantized_witness :
    (∃ k : ℤ, (Weather.dayAggregate
      ⟨"2026-10-12", "12.10.2026",
       [⟨"2026-10-12", "12.10.2026", 251/25, 10, 50, "clear sky", 2, none,
         none⟩]⟩).temp_min = k / 10)
    ∧ (∃ k : ℤ, (Weather.dayAggregate
      ⟨"2026-10-12", "12.10.2026",
       [⟨"2026-10-12", "12.10.2026", 251/25, 10, 50, "clear sky", 2, none,
         none⟩]⟩).temp_max = k / 10)
    ∧ (∃ k : ℤ, (Weather.dayAggregate
      ⟨"2026-10-12", "12.10.2026",
       [⟨"2026-10-12", "12.10.2026", 251/25, 10, 50, "clear sky", 2, none,
         none⟩]⟩).feels_like = k / 10)
    ∧ (∃ k : ℤ, (Weather.dayAggregate
      ⟨"2026-10-12", "12.10.2026",
       [⟨"2026-10-12", "12.10.2026", 251/25, 10, 50, "clear sky", 2, none,
         none⟩]⟩).wind_speed = k / 10)
    ∧ (∃ k : ℤ, (Weather.dayAggregate
      ⟨"2026-10-12", "12.10.2026",
       [⟨"2026-10-12", "12.10.2026", 251/25, 10, 50, "clear sky", 2, none,
         none⟩]⟩).precipitation = k / 10) :=
  daily_fields_quantized roundDemoData 7 _
    (by simp [Weather.processForecast, Weather.groupByDay, Weather.addToGroups,
      roundDemoData, List.insertionSort])

/-! ### C5 — the web viewer does not reproduce the stored temperature data -/

/-- A one-day processed forecast with measured temperatures, wind and zero
precipitation, as `handle_duration` would aggregate it. -/
def viewDemoDaily : List Weather.DayForecast :=
  [⟨"12.10.2026", "2026-10-12", 10, 20, 15, 60, 3, 0, "clear sky"⟩]

/-- Is a rendered weather line a temperature-range line? -/
def isTempLine : Web.WeatherLine → Bool
  | .dayRange _ _ => true
  | .nightRange _ _ => true
  | _ => false

/-- C5 counterexample: a checklist created from a forecast with measured
temperatures stores `avg_temp_min`/`avg_temp_max` (10 and 20) in its
`aggregated_weather`, but the web viewer's data-loading path reads the
`day_temp_range`/`night_temp_range` keys — which the creation path never
writes — so the read-back view contains no temperature-range line at all:
the day and night temperature ranges are not reproduced, against the
claim.  The description set, by contrast, is carried through verbatim. -/
theorem weather_roundtrip_counterexample :
    (Handlers.aggregateWeather viewDemoDaily).avg_temp_min = some 10
    ∧ (Handlers.aggregateWeather viewDemoDaily).avg_temp_max = some 20
    ∧ (Web.webWeatherLines (Handlers.aggregateWeather viewDemoDaily)).filter
        (fun l => isTempLine l) = []
    ∧ Web.webWeatherLines (Handlers.aggregateWeather viewDemoDaily)
        = [.descs ["clear sky"]] := by
  refine ⟨?_, ?_, ?_, ?_⟩
  · simp [Handlers.aggregateWeather, viewDemoDaily, qAvg]
  · simp [Handlers.aggregateWeather, viewDemoDaily, qAvg]
  · simp [Web.webWeatherLines, Handlers.aggregateWeather, viewDemoDaily,
      Web.truthyQ, qAvg, qMax, pyRound1_zero, isTempLine]
  · simp [Web.webWeatherLines, Handlers.aggregateWeather, viewDemoDaily,
      Web.truthyQ, qAvg, qMax, pyRound1_zero]

/-- C5 amended: the creation-time aggregation writes no
`day_temp_range`/`night_temp_range` keys (temperature is stored as
`avg_temp_min`/`avg_temp_max`, which the viewer never reads), so the web
view of a checklist created by this pipeline carries no temperature range;
the stored description list is rendered verbatim whenever it is non-empty,
and day/night ranges are rendered verbatim for any stored payload that does
carry them (for example one written by an earlier revision). -/
theorem weather_view_roundtrip (daily : List Weather.DayForecast)
    (w : Handlers.AggregatedWeather) :
    (Handlers.aggregateWeather daily).day_temp_range = none
    ∧ (Handlers.aggregateWeather daily).night_temp_range = none
    ∧ (Handlers.aggregateWeather daily).descriptions
        = (daily.map (·.description)).dedup
    ∧ (∀ p, w.day_temp_range = some p →
        Web.WeatherLine.dayRange p.1 p.2 ∈ Web.webWeatherLines w)
    ∧ (∀ p, w.night_temp_range = some p →
        Web.WeatherLine.nightRange p.1 p.2 ∈ Web.webWeatherLines w)
    ∧ (w.descriptions ≠ [] →
        Web.WeatherLine.descs w.descriptions ∈ Web.webWeatherLines w) := by
  refine ⟨rfl, rfl, rfl, ?_, ?_, ?_⟩
  · intro p hp
    simp [Web.webWeatherLines, hp]
  · intro p hp
    simp [Web.webWeatherLines, hp]
  · intro hne
    simp [Web.webWeatherLines, hne]

/-- A stored weather payload that does carry day/night ranges. -/
def demoStoredWeather : Handlers.AggregatedWeather :=
  ⟨some (5, 12), some (1, 4), ["ясно"], some 8, some 11, none, some 4, some 2,
   some 9⟩

/-- Witness for C5's amended statement: stored ranges and descriptions are
rendered. -/
theorem weather_view_roundtrip_witness :
    Web.WeatherLine.dayRange 5 12 ∈ Web.webWeatherLines demoStoredWeather
    ∧ Web.WeatherLine.nightRange 1 4 ∈ Web.webWeatherLines demoStoredWeather
    ∧ Web.WeatherLine.descs ["ясно"] ∈ Web.webWeatherLines demoStoredWeather :=
  ⟨(weather_view_roundtrip [] demoStoredWeather).2.2.2.1 (5, 12) rfl,
   (weather_view_roundtrip [] demoStoredWeather).2.2.2.2.1 (1, 4) rfl,
   (weather_view_roundtrip [] demoStoredWeather).2.2.2.2.2 (by decide)⟩
